import Mathlib

/-!
Shallow embedding of `kubectl-gitlab_bootstrap` (pkg/cmd/gitlab-bootstrap.go).

The program is a linear pipeline: `Complete` resolves configuration,
`Validate` checks the GitLab target, `Run` provisions a ServiceAccount and
ClusterRoleBinding in namespace `kube-system`, extracts the ServiceAccount
token from its Secret, and registers the cluster with GitLab.

Modelling choices, each justified by the source or the client libraries it
calls:
- Errors are `Option GoErr` (`none` = Go `nil`). `wrap` embeds
  `github.com/pkg/errors.Wrap`, which returns `nil` when its argument is
  `nil` (errors v0.8.0, `errors.go`).
- The Kubernetes API server is a `ClusterState` record; GET succeeds iff the
  named object exists, except that a GET with an empty name fails
  client-side (client-go `rest/request.go`: `Name` rejects an empty
  resource name with "resource name may not be empty" before any request is
  sent), and CREATE fails iff the name already exists.
- `regexp.MatchString "^gitlab-admin-token-" s` is a plain anchored prefix
  match on a constant, valid pattern, so its error branch is unreachable and
  it is embedded as a prefix test on the character lists of the strings.
- External effects (API calls, env reads, printed lines) are recorded in
  explicit trace lists so that claims about which calls happen are statable.
- The GitLab server is an oracle record of response functions; the
  `gitlab.Client` construction and `SetBaseURL` perform no API call.
-/

namespace GitLabBootstrap

/-- Go error values: either a fresh error (fmt.Errorf / errors.New / a client
library error) or a `pkg/errors.Wrap` of a cause with a context message. -/
inductive GoErr : Type where
  | base (msg : String) : GoErr
  | wrapped (msg : String) (cause : GoErr) : GoErr
deriving Repr, DecidableEq

/-- Embedding of `errors.Wrap` from github.com/pkg/errors v0.8.0: wrapping a
nil error yields nil. -/
def wrap : Option GoErr → String → Option GoErr
  | none, _ => none
  | some e, msg => some (.wrapped msg e)

/-- Context message of the outermost error. -/
def GoErr.message : GoErr → String
  | .base m => m
  | .wrapped m _ => m

/- Kubernetes API objects (only the fields the program touches). -/

/-- metav1.ObjectMeta: only Name is ever set or read by the program. -/
structure ObjectMeta where
  Name : String := ""
deriving Repr, DecidableEq

/-- v1.ObjectReference, as used in ServiceAccount.Secrets. -/
structure ObjectReference where
  Name : String := ""
deriving Repr, DecidableEq

/-- v1.ServiceAccount with its embedded ObjectMeta as a `metadata` field. -/
structure ServiceAccount where
  metadata : ObjectMeta := {}
  Secrets : List ObjectReference := []
deriving Repr, DecidableEq

/-- v1.Secret; Data maps keys to values, as an association list. The Go map
read `secret.Data["token"]` yields the zero value (empty) on a missing key. -/
structure Secret where
  metadata : ObjectMeta := {}
  Data : List (String × String) := []
deriving Repr, DecidableEq

/-- Go map indexing with the zero-value default for a missing key. -/
def mapGetD (m : List (String × String)) (k : String) : String :=
  (m.lookup k).getD ""

/-- rbacv1.Subject. -/
structure Subject where
  Kind : String := ""
  Name : String := ""
  Namespace : String := ""
deriving Repr, DecidableEq

/-- rbacv1.RoleRef. -/
structure RoleRef where
  Name : String := ""
  Kind : String := ""
deriving Repr, DecidableEq

/-- rbacv1.ClusterRoleBinding. -/
structure ClusterRoleBinding where
  metadata : ObjectMeta := {}
  Subjects : List Subject := []
  RoleRef : RoleRef := {}
deriving Repr, DecidableEq

/-- The Kubernetes cluster contents the program reads and writes, all in
namespace `kube-system`, keyed by object name. -/
structure ClusterState where
  serviceAccounts : List (String × ServiceAccount) := []
  secrets : List (String × Secret) := []
  clusterRoleBindings : List (String × ClusterRoleBinding) := []
deriving Repr, DecidableEq

/-- GET of a ServiceAccount: an empty name is rejected client-side
(client-go rest.Request.Name); otherwise it succeeds iff the object exists. -/
def kubeGetServiceAccount (st : ClusterState) (name : String) :
    Except GoErr ServiceAccount :=
  if name = "" then .error (.base "resource name may not be empty")
  else
    match st.serviceAccounts.lookup name with
    | some sa => .ok sa
    | none => .error (.base ("serviceaccounts \"" ++ name ++ "\" not found"))

/-- CREATE of a ServiceAccount: fails iff the name already exists. -/
def kubeCreateServiceAccount (st : ClusterState) (sa : ServiceAccount) :
    Except GoErr ClusterState :=
  match st.serviceAccounts.lookup sa.metadata.Name with
  | some _ =>
      .error (.base ("serviceaccounts \"" ++ sa.metadata.Name ++ "\" already exists"))
  | none =>
      .ok { st with serviceAccounts := st.serviceAccounts ++ [(sa.metadata.Name, sa)] }

/-- GET of a Secret, with the same empty-name client-side rejection. -/
def kubeGetSecret (st : ClusterState) (name : String) : Except GoErr Secret :=
  if name = "" then .error (.base "resource name may not be empty")
  else
    match st.secrets.lookup name with
    | some s => .ok s
    | none => .error (.base ("secrets \"" ++ name ++ "\" not found"))

/-- GET of a ClusterRoleBinding. -/
def kubeGetClusterRoleBinding (st : ClusterState) (name : String) :
    Except GoErr ClusterRoleBinding :=
  if name = "" then .error (.base "resource name may not be empty")
  else
    match st.clusterRoleBindings.lookup name with
    | some c => .ok c
    | none =>
        .error (.base ("clusterrolebindings.rbac.authorization.k8s.io \"" ++ name ++ "\" not found"))

/-- CREATE of a ClusterRoleBinding: fails iff the name already exists. -/
def kubeCreateClusterRoleBinding (st : ClusterState) (crb : ClusterRoleBinding) :
    Except GoErr ClusterState :=
  match st.clusterRoleBindings.lookup crb.metadata.Name with
  | some _ =>
      .error (.base ("clusterrolebindings.rbac.authorization.k8s.io \"" ++ crb.metadata.Name ++ "\" already exists"))
  | none =>
      .ok { st with clusterRoleBindings := st.clusterRoleBindings ++ [(crb.metadata.Name, crb)] }

/-- Trace of Kubernetes API calls the program issues. -/
inductive KubeCall : Type where
  | getServiceAccount (ns name : String)
  | createServiceAccount (ns : String) (sa : ServiceAccount)
  | getSecret (ns name : String)
  | getClusterRoleBinding (name : String)
  | createClusterRoleBinding (crb : ClusterRoleBinding)
deriving Repr, DecidableEq

/- GitLab API objects (go-gitlab, only the fields the program touches). -/

/-- gitlab.AddPlatformKubernetesOptions. -/
structure AddPlatformKubernetesOptions where
  APIURL : String := ""
  Token : String := ""
  CaCert : String := ""
deriving Repr, DecidableEq

/-- gitlab.AddClusterOptions (project variant). -/
structure AddClusterOptions where
  Name : String := ""
  EnvironmentScope : String := ""
  PlatformKubernetes : AddPlatformKubernetesOptions := {}
deriving Repr, DecidableEq

/-- gitlab.AddGroupPlatformKubernetesOptions. -/
structure AddGroupPlatformKubernetesOptions where
  APIURL : String := ""
  Token : String := ""
  CaCert : String := ""
deriving Repr, DecidableEq

/-- gitlab.AddGroupClusterOptions. -/
structure AddGroupClusterOptions where
  Name : String := ""
  EnvironmentScope : String := ""
  PlatformKubernetes : AddGroupPlatformKubernetesOptions := {}
deriving Repr, DecidableEq

/-- the Project field of a gitlab.ProjectCluster response. -/
structure GitLabProjectInfo where
  WebURL : String := ""
deriving Repr, DecidableEq

/-- gitlab.ProjectCluster response: the registrar reads ID and Project.WebURL. -/
structure ProjectCluster where
  ID : Int := 0
  Project : GitLabProjectInfo := {}
deriving Repr, DecidableEq

/-- the Group field of a gitlab.GroupCluster response. -/
structure GitLabGroupInfo where
  WebURL : String := ""
deriving Repr, DecidableEq

/-- gitlab.GroupCluster response: the registrar reads ID and Group.WebURL. -/
structure GroupCluster where
  ID : Int := 0
  Group : GitLabGroupInfo := {}
deriving Repr, DecidableEq

/-- Oracle for the GitLab server: what each endpoint answers. -/
structure GitLabServer where
  getGroup : String → Option GoErr
  getProject : String → Option GoErr
  addGroupCluster : String → AddGroupClusterOptions → Except GoErr GroupCluster
  addProjectCluster : String → AddClusterOptions → Except GoErr ProjectCluster

/-- Trace of GitLab API calls the program issues. -/
inductive GitLabCall : Type where
  | getGroup (id : String)
  | getProject (id : String)
  | addGroupCluster (id : String) (opts : AddGroupClusterOptions)
  | addProjectCluster (id : String) (opts : AddClusterOptions)
deriving Repr, DecidableEq

/-- GitLabBootstrapOptions: the options aggregate. `ConfigFlagsKubeConfig`
stands for `*o.ConfigFlags.KubeConfig` (the --kubeconfig flag value, empty
when unset); the client handles (RestConfig, KubeAPI, KubeClientSet,
GitLabAPI) are represented by the oracles instead of stored pointers. -/
structure GitLabBootstrapOptions where
  ConfigFlagsKubeConfig : String := ""
  GitLabAPIToken : String := ""
  GitLabProjectID : String := ""
  GitLabURL : String := ""
  GitLabGroupCluster : Bool := false
  KubeConfig : String := ""
  ClusterName : String := ""
  ClusterHost : String := ""
  ClusterCA : String := ""
  ServiceAccountToken : String := ""
deriving Repr, DecidableEq

/- Configuration resolution (Complete), gitlab-bootstrap.go lines 92-142. -/

/-- restclient.Config.TLSClientConfig: only CAData is read. -/
structure TLSClientConfig where
  CAData : String := ""
deriving Repr, DecidableEq

/-- restclient.Config: only Host and TLSClientConfig.CAData are read. -/
structure RestConfig where
  Host : String := ""
  TLSClientConfig : TLSClientConfig := {}
deriving Repr, DecidableEq

/-- clientcmdapi.Context: only Cluster is read. -/
structure KubeContext where
  Cluster : String := ""
deriving Repr, DecidableEq

/-- clientcmdapi.Config: the context map and the current-context name. -/
structure ClientcmdConfig where
  Contexts : List (String × KubeContext) := []
  CurrentContext : String := ""
deriving Repr, DecidableEq

/-- Trace of the external operations Complete performs. -/
inductive CompleteCall : Type where
  | getenv (key : String)
  | userHomeDir
  | buildConfigFromFlags (kubeconfig : String)
  | loadFromFile (path : String)
  | newForConfig
deriving Repr, DecidableEq

/-- Oracle for the environment Complete consults: os.Getenv (returns the
empty string for an unset variable), os.UserHomeDir,
clientcmd.BuildConfigFromFlags, clientcmd.LoadFromFile, and
kubernetes.NewForConfig. -/
structure CompleteEnv where
  getenv : String → String
  userHomeDir : Except GoErr String
  buildConfigFromFlags : String → Except GoErr RestConfig
  loadFromFile : String → Except GoErr ClientcmdConfig
  newForConfig : RestConfig → Except GoErr Unit

/-- Result of Complete: the returned error, the mutated options, and the
trace of external operations. -/
structure CompleteResult where
  err : Option GoErr
  opts : GitLabBootstrapOptions
  calls : List CompleteCall
deriving Repr, DecidableEq

/-- Complete from the point where o.KubeConfig has been resolved (lines
113-141): build the rest config, load the clientcmdapi config, check the
contexts, record the current context cluster name, create the clientset.
The Go map read `api.Contexts[api.CurrentContext]` yields nil on a missing
key (and the subsequent field access would panic); the model reads the zero
Context instead, a case no claim touches. -/
def completeFromConfigPath (cenv : CompleteEnv) (o : GitLabBootstrapOptions) :
    CompleteResult :=
  match cenv.buildConfigFromFlags o.KubeConfig with
  | .error e =>
      { err := wrap (some e) "error building config from kubeconfig path",
        opts := o, calls := [CompleteCall.buildConfigFromFlags o.KubeConfig] }
  | .ok config =>
    let o1 := { o with ClusterHost := config.Host,
                       ClusterCA := config.TLSClientConfig.CAData }
    match cenv.loadFromFile o1.KubeConfig with
    | .error e =>
        { err := wrap (some e) "error creating clientcmdapi from kubeconfig path",
          opts := o1,
          calls := [CompleteCall.buildConfigFromFlags o1.KubeConfig,
                    CompleteCall.loadFromFile o1.KubeConfig] }
    | .ok api =>
      let calls := [CompleteCall.buildConfigFromFlags o1.KubeConfig,
                    CompleteCall.loadFromFile o1.KubeConfig]
      if api.Contexts.length < 1 then
        { err := some (.base "no contexts found in kubeconfig"),
          opts := o1, calls := calls }
      else if api.CurrentContext = "" then
        { err := some (.base "no context currently set"),
          opts := o1, calls := calls }
      else
        let o2 := { o1 with ClusterName :=
          ((api.Contexts.lookup api.CurrentContext).getD {}).Cluster }
        match cenv.newForConfig config with
        | .error e =>
            { err := wrap (some e) "error creating clientset from config",
              opts := o2, calls := calls ++ [CompleteCall.newForConfig] }
        | .ok _ =>
            { err := none, opts := o2,
              calls := calls ++ [CompleteCall.newForConfig] }

/-- Kubeconfig path resolution (lines 102-112): the --kubeconfig flag wins;
otherwise the home directory is resolved and `(home)/.kube/config` is used
(filepath.Join on already-clean segments). -/
def completeKube (cenv : CompleteEnv) (o : GitLabBootstrapOptions) :
    CompleteResult :=
  if o.ConfigFlagsKubeConfig ≠ "" then
    completeFromConfigPath cenv { o with KubeConfig := o.ConfigFlagsKubeConfig }
  else
    match cenv.userHomeDir with
    | .error e =>
        { err := wrap (some e) "can't get home dir", opts := o,
          calls := [CompleteCall.userHomeDir] }
    | .ok home =>
        let r := completeFromConfigPath cenv
          { o with KubeConfig := home ++ "/.kube/config" }
        { r with calls := CompleteCall.userHomeDir :: r.calls }

/-- Complete (lines 92-142): require exactly one positional argument, store
it as the project id, fall back to the GITLAB_API_TOKEN environment variable
when the token flag is empty, then resolve the kubeconfig and clients. -/
def Complete (cenv : CompleteEnv) (o : GitLabBootstrapOptions)
    (args : List String) : CompleteResult :=
  if args.length ≠ 1 then
    { err := some (.base "GitLab project id is required"), opts := o, calls := [] }
  else
    let o1 := { o with GitLabProjectID := args.headD "" }
    if o1.GitLabAPIToken = "" then
      let r := completeKube cenv
        { o1 with GitLabAPIToken := cenv.getenv "GITLAB_API_TOKEN" }
      { r with calls := CompleteCall.getenv "GITLAB_API_TOKEN" :: r.calls }
    else
      completeKube cenv o1

/- GitLab connectivity validation (Validate), lines 145-171. -/

/-- Result of a GitLab-facing step: error, API call trace, printed lines. -/
structure GitLabStepResult where
  err : Option GoErr
  calls : List GitLabCall
  output : List String
deriving Repr, DecidableEq

/-- Validate (lines 145-171): reject an empty token or id, construct the
client (NewClient and SetBaseURL issue no API call), then look up the group
or the project according to the GitLabGroupCluster flag. -/
def Validate (server : GitLabServer) (o : GitLabBootstrapOptions) :
    GitLabStepResult :=
  if o.GitLabAPIToken = "" then
    { err := some (.base "GitLab API token is required"), calls := [], output := [] }
  else if o.GitLabProjectID = "" then
    { err := some (.base "GitLab project id is required"), calls := [], output := [] }
  else if o.GitLabGroupCluster then
    match server.getGroup o.GitLabProjectID with
    | some e =>
        { err := wrap (some e) "unable to get GitLab group",
          calls := [GitLabCall.getGroup o.GitLabProjectID], output := [] }
    | none =>
        { err := none, calls := [GitLabCall.getGroup o.GitLabProjectID], output := [] }
  else
    match server.getProject o.GitLabProjectID with
    | some e =>
        { err := wrap (some e) "unable to get GitLab project",
          calls := [GitLabCall.getProject o.GitLabProjectID], output := [] }
    | none =>
        { err := none, calls := [GitLabCall.getProject o.GitLabProjectID], output := [] }

/- Kubernetes provisioning and token extraction (Run steps), lines 191-263. -/

/-- Result of a Kubernetes-facing step: error, resulting cluster state, API
call trace, the (possibly mutated) options, printed lines. -/
structure KubeStepResult where
  err : Option GoErr
  state : ClusterState
  calls : List KubeCall
  opts : GitLabBootstrapOptions
  output : List String
deriving Repr, DecidableEq

/-- CreateServiceAccount (lines 191-205): GET gitlab-admin in kube-system;
on any GET error, CREATE a ServiceAccount with only the name set and fail
only if the CREATE fails; on GET success, print the reuse message and leave
the cluster untouched. -/
def CreateServiceAccount (st : ClusterState) (o : GitLabBootstrapOptions) :
    KubeStepResult :=
  match kubeGetServiceAccount st "gitlab-admin" with
  | .ok _ =>
      { err := none, state := st,
        calls := [KubeCall.getServiceAccount "kube-system" "gitlab-admin"],
        opts := o, output := ["Using existing gitlab-admin account"] }
  | .error _ =>
      let saSpec : ServiceAccount := { metadata := { Name := "gitlab-admin" } }
      match kubeCreateServiceAccount st saSpec with
      | .error e =>
          { err := wrap (some e) "unable to create service account", state := st,
            calls := [KubeCall.getServiceAccount "kube-system" "gitlab-admin",
                      KubeCall.createServiceAccount "kube-system" saSpec],
            opts := o, output := [] }
      | .ok st1 =>
          { err := none, state := st1,
            calls := [KubeCall.getServiceAccount "kube-system" "gitlab-admin",
                      KubeCall.createServiceAccount "kube-system" saSpec],
            opts := o, output := [] }

/-- The crbSpec literal of lines 209-218. -/
def crbSpec : ClusterRoleBinding :=
  { metadata := { Name := "gitlab-admin" },
    Subjects := [{ Kind := "ServiceAccount", Name := "gitlab-admin",
                   Namespace := "kube-system" }],
    RoleRef := { Name := "cluster-admin", Kind := "ClusterRole" } }

/-- CreateClusterRoleBinding (lines 208-231): same get-or-create policy as
the ServiceAccount, for the gitlab-admin ClusterRoleBinding. -/
def CreateClusterRoleBinding (st : ClusterState) (o : GitLabBootstrapOptions) :
    KubeStepResult :=
  match kubeGetClusterRoleBinding st "gitlab-admin" with
  | .ok _ =>
      { err := none, state := st,
        calls := [KubeCall.getClusterRoleBinding "gitlab-admin"],
        opts := o, output := ["Using existing clusterrolebinding"] }
  | .error _ =>
      match kubeCreateClusterRoleBinding st crbSpec with
      | .error e =>
          { err := wrap (some e) "unable to create clusterrolebinding", state := st,
            calls := [KubeCall.getClusterRoleBinding "gitlab-admin",
                      KubeCall.createClusterRoleBinding crbSpec],
            opts := o, output := [] }
      | .ok st1 =>
          { err := none, state := st1,
            calls := [KubeCall.getClusterRoleBinding "gitlab-admin",
                      KubeCall.createClusterRoleBinding crbSpec],
            opts := o, output := [] }

/-- regexp.MatchString with the constant anchored pattern of line 242: the
name matches iff it starts with "gitlab-admin-token-" (stated on the
character lists, which is what a string prefix is). -/
def regexpMatchTokenName (name : String) : Bool :=
  "gitlab-admin-token-".data.isPrefixOf name.data

/-- The secret-reference loop of lines 240-250. The first component is the
tokenName variable after the loop: the name of the first matching reference,
or the zero value "" when none matches (the loop breaks at the first match).
The second component instruments the loop: the references it examined before
stopping, so that claims about never inspecting later entries are statable. -/
def findTokenName : List ObjectReference → String × List ObjectReference
  | [] => ("", [])
  | r :: rs =>
      if regexpMatchTokenName r.Name then (r.Name, [r])
      else
        let p := findTokenName rs
        (p.1, r :: p.2)

/-- SaveServiceAccountToken (lines 234-263): re-fetch the ServiceAccount,
scan its secret references for the first name matching
`^gitlab-admin-token-`, GET that Secret, read its "token" datum. When the
datum is empty the Go code returns `errors.Wrap(err, "no data in
serviceaccount token")`, but at that point `err` is the nil error of the
successful Secret GET, and errors.Wrap of nil is nil: the step reports
success without setting ServiceAccountToken. -/
def SaveServiceAccountToken (st : ClusterState) (o : GitLabBootstrapOptions) :
    KubeStepResult :=
  match kubeGetServiceAccount st "gitlab-admin" with
  | .error e =>
      { err := wrap (some e) "unable to get serviceaccount", state := st,
        calls := [KubeCall.getServiceAccount "kube-system" "gitlab-admin"],
        opts := o, output := [] }
  | .ok sa =>
      let tokenName := (findTokenName sa.Secrets).1
      let calls := [KubeCall.getServiceAccount "kube-system" "gitlab-admin",
                    KubeCall.getSecret "kube-system" tokenName]
      match kubeGetSecret st tokenName with
      | .error e =>
          { err := wrap (some e) "unable to get serviceaccount token",
            state := st, calls := calls, opts := o, output := [] }
      | .ok secret =>
          let token := mapGetD secret.Data "token"
          if token = "" then
            { err := wrap none "no data in serviceaccount token",
              state := st, calls := calls, opts := o, output := [] }
          else
            { err := none, state := st, calls := calls,
              opts := { o with ServiceAccountToken := token }, output := [] }

/- GitLab cluster registration, lines 266-318. -/

/-- The clusterOpts literal of lines 281-289. -/
def groupClusterOpts (o : GitLabBootstrapOptions) : AddGroupClusterOptions :=
  { Name := o.ClusterName,
    EnvironmentScope := "*",
    PlatformKubernetes := { APIURL := o.ClusterHost,
                            Token := o.ServiceAccountToken,
                            CaCert := o.ClusterCA } }

/-- The clusterOpts literal of lines 301-309. -/
def projectClusterOpts (o : GitLabBootstrapOptions) : AddClusterOptions :=
  { Name := o.ClusterName,
    EnvironmentScope := "*",
    PlatformKubernetes := { APIURL := o.ClusterHost,
                            Token := o.ServiceAccountToken,
                            CaCert := o.ClusterCA } }

/-- addClusterToGroup (lines 280-298). -/
def addClusterToGroup (server : GitLabServer) (o : GitLabBootstrapOptions) :
    GitLabStepResult :=
  let clusterOpts := groupClusterOpts o
  match server.addGroupCluster o.GitLabProjectID clusterOpts with
  | .error e =>
      { err := wrap (some e) "unable to assign kubernetes cluster to group",
        calls := [GitLabCall.addGroupCluster o.GitLabProjectID clusterOpts],
        output := [] }
  | .ok gc =>
      let gitlabClusterURL := gc.Group.WebURL ++ "/clusters/" ++ toString gc.ID
      { err := none,
        calls := [GitLabCall.addGroupCluster o.GitLabProjectID clusterOpts],
        output := ["Cluster successfully added to group!",
                   "To finish up visit: " ++ gitlabClusterURL ++
                     " and install Helm and Runner."] }

/-- addClusterToProject (lines 300-318). -/
def addClusterToProject (server : GitLabServer) (o : GitLabBootstrapOptions) :
    GitLabStepResult :=
  let clusterOpts := projectClusterOpts o
  match server.addProjectCluster o.GitLabProjectID clusterOpts with
  | .error e =>
      { err := wrap (some e) "unable to assign kubernetes cluster to project",
        calls := [GitLabCall.addProjectCluster o.GitLabProjectID clusterOpts],
        output := [] }
  | .ok pc =>
      let gitlabClusterURL := pc.Project.WebURL ++ "/clusters/" ++ toString pc.ID
      { err := none,
        calls := [GitLabCall.addProjectCluster o.GitLabProjectID clusterOpts],
        output := ["Cluster successfully added to project!",
                   "To finish up visit: " ++ gitlabClusterURL ++
                     " and install Helm and Runner."] }

/-- AddClusterToGitLab (lines 266-278): dispatch on the GitLabGroupCluster
flag. -/
def AddClusterToGitLab (server : GitLabServer) (o : GitLabBootstrapOptions) :
    GitLabStepResult :=
  if o.GitLabGroupCluster then addClusterToGroup server o
  else addClusterToProject server o

/- The Run sequence (lines 174-188) and the command body (lines 69-80). -/

/-- Result of Run: error, final cluster state, the Kubernetes and GitLab
call traces, the final options, the printed lines. -/
structure RunResult where
  err : Option GoErr
  state : ClusterState
  kubeCalls : List KubeCall
  gitlabCalls : List GitLabCall
  opts : GitLabBootstrapOptions
  output : List String
deriving Repr, DecidableEq

/-- Run (lines 174-188): the four steps in order, short-circuiting on the
first error. -/
def Run (server : GitLabServer) (st : ClusterState)
    (o : GitLabBootstrapOptions) : RunResult :=
  let r1 := CreateServiceAccount st o
  match r1.err with
  | some e =>
      { err := some e, state := r1.state, kubeCalls := r1.calls,
        gitlabCalls := [], opts := r1.opts, output := r1.output }
  | none =>
    let r2 := CreateClusterRoleBinding r1.state r1.opts
    match r2.err with
    | some e =>
        { err := some e, state := r2.state, kubeCalls := r1.calls ++ r2.calls,
          gitlabCalls := [], opts := r2.opts, output := r1.output ++ r2.output }
    | none =>
      let r3 := SaveServiceAccountToken r2.state r2.opts
      match r3.err with
      | some e =>
          { err := some e, state := r3.state,
            kubeCalls := r1.calls ++ r2.calls ++ r3.calls,
            gitlabCalls := [], opts := r3.opts,
            output := r1.output ++ r2.output ++ r3.output }
      | none =>
        let r4 := AddClusterToGitLab server r3.opts
        { err := r4.err, state := r3.state,
          kubeCalls := r1.calls ++ r2.calls ++ r3.calls,
          gitlabCalls := r4.calls, opts := r3.opts,
          output := r1.output ++ r2.output ++ r3.output ++ r4.output }

/-- Result of the whole command body: error plus every trace. -/
structure RunEResult where
  err : Option GoErr
  completeCalls : List CompleteCall
  gitlabCalls : List GitLabCall
  kubeCalls : List KubeCall
  opts : GitLabBootstrapOptions
  state : ClusterState
  output : List String
deriving Repr, DecidableEq

/-- The RunE body of lines 69-80: Complete, Validate, Run, short-circuiting
on the first error. -/
def RunE (cenv : CompleteEnv) (server : GitLabServer) (st : ClusterState)
    (o : GitLabBootstrapOptions) (args : List String) : RunEResult :=
  let rc := Complete cenv o args
  match rc.err with
  | some e =>
      { err := some e, completeCalls := rc.calls, gitlabCalls := [],
        kubeCalls := [], opts := rc.opts, state := st, output := [] }
  | none =>
    let rv := Validate server rc.opts
    match rv.err with
    | some e =>
        { err := some e, completeCalls := rc.calls, gitlabCalls := rv.calls,
          kubeCalls := [], opts := rc.opts, state := st, output := rv.output }
    | none =>
      let rr := Run server st rc.opts
      { err := rr.err, completeCalls := rc.calls,
        gitlabCalls := rv.calls ++ rr.gitlabCalls, kubeCalls := rr.kubeCalls,
        opts := rr.opts, state := rr.state, output := rv.output ++ rr.output }

/- Concrete fixtures used to evaluate the definitions at specific inputs. -/

/-- A gitlab-admin ServiceAccount carrying one matching secret reference. -/
def saWithToken : ServiceAccount :=
  { metadata := { Name := "gitlab-admin" },
    Secrets := [{ Name := "gitlab-admin-token-abc123" }] }

/-- Cluster state in which the gitlab-admin ServiceAccount already exists. -/
def stExisting : ClusterState :=
  { serviceAccounts := [("gitlab-admin", saWithToken)] }

/-- Cluster state for the empty-token slip: the provisioned objects exist
and the token Secret is present but its "token" datum is the empty string. -/
def stEmptyTokenSecret : ClusterState :=
  { serviceAccounts := [("gitlab-admin", saWithToken)],
    secrets := [("gitlab-admin-token-abc123",
                 { metadata := { Name := "gitlab-admin-token-abc123" },
                   Data := [("token", "")] })],
    clusterRoleBindings := [("gitlab-admin", crbSpec)] }

/-- A gitlab-admin ServiceAccount with only non-matching secret references. -/
def saNoMatch : ServiceAccount :=
  { metadata := { Name := "gitlab-admin" },
    Secrets := [{ Name := "foo" }, { Name := "bar" }] }

/-- Cluster state whose gitlab-admin ServiceAccount has only non-matching
secret references. -/
def stNoMatchRefs : ClusterState :=
  { serviceAccounts := [("gitlab-admin", saNoMatch)] }

/-- Cluster state whose gitlab-admin ServiceAccount has a matching secret
reference, but the referenced Secret is absent (the fetch itself fails). -/
def stFetchFail : ClusterState :=
  { serviceAccounts :=
      [("gitlab-admin",
        { metadata := { Name := "gitlab-admin" },
          Secrets := [{ Name := "gitlab-admin-token-xyz" }] })] }

/-- A gitlab-admin ServiceAccount with two matching secret references after
one non-matching one. -/
def saTwoMatches : ServiceAccount :=
  { metadata := { Name := "gitlab-admin" },
    Secrets := [{ Name := "foo" },
                { Name := "gitlab-admin-token-aaa" },
                { Name := "gitlab-admin-token-bbb" }] }

/-- Cluster state holding `saTwoMatches`, where only the first matching
reference is backed by a Secret. -/
def stTwoMatches : ClusterState :=
  { serviceAccounts := [("gitlab-admin", saTwoMatches)],
    secrets := [("gitlab-admin-token-aaa",
                 { metadata := { Name := "gitlab-admin-token-aaa" },
                   Data := [("token", "s3cr3t")] })] }

/-- A GitLab server that accepts every request, answering the cluster-add
calls with the response values of the spec example. -/
def serverOK : GitLabServer :=
  { getGroup := fun _ => none,
    getProject := fun _ => none,
    addGroupCluster := fun _ _ =>
      .ok { ID := 5, Group := { WebURL := "https://gitlab.example/grp" } },
    addProjectCluster := fun _ _ =>
      .ok { ID := 42, Project := { WebURL := "https://gitlab.example/proj" } } }

/-- The project cluster-add response of the spec example: ID 42, project
web URL "https://gitlab.example/proj". -/
def pcW : ProjectCluster :=
  { ID := 42, Project := { WebURL := "https://gitlab.example/proj" } }

/-- A CompleteEnv in which every external operation succeeds and the
GITLAB_API_TOKEN environment variable is set to "tok". -/
def cenvW : CompleteEnv :=
  { getenv := fun k => if k = "GITLAB_API_TOKEN" then "tok" else "",
    userHomeDir := .ok "/home/u",
    buildConfigFromFlags := fun _ =>
      .ok { Host := "https://k8s.example:6443",
            TLSClientConfig := { CAData := "CA" } },
    loadFromFile := fun _ =>
      .ok { Contexts := [("ctx", { Cluster := "mycluster" })],
            CurrentContext := "ctx" },
    newForConfig := fun _ => .ok () }

/-- Options as they stand after a successful Complete and Validate for a
project-target invocation. -/
def oReady : GitLabBootstrapOptions :=
  { GitLabAPIToken := "tok", GitLabProjectID := "7",
    ClusterName := "mycluster", ClusterHost := "https://k8s.example:6443",
    ClusterCA := "CA" }

/- Helper lemmas (shared; not tied to a single claim). -/

/-- Appending a fresh key to an association list makes it found. -/
theorem lookup_append_singleton {β : Type} (l : List (String × β)) (k : String)
    (v : β) (h : l.lookup k = none) : (l ++ [(k, v)]).lookup k = some v := by
  induction l with
  | nil => simp [List.lookup]
  | cons a tl ih =>
      obtain ⟨ak, av⟩ := a
      by_cases hk : k = ak
      · subst hk
        simp [List.lookup] at h
      · have hb : (k == ak) = false := beq_eq_false_iff_ne.mpr hk
        simp only [List.cons_append, List.lookup, hb] at h ⊢
        exact ih h

/-- The secret-reference loop leaves tokenName at its zero value and walks
the whole list when no reference matches. -/
theorem findTokenName_of_no_match (l : List ObjectReference)
    (h : ∀ r ∈ l, regexpMatchTokenName r.Name = false) :
    findTokenName l = ("", l) := by
  induction l with
  | nil => rfl
  | cons r rs ih =>
      have hr : regexpMatchTokenName r.Name = false := h r (by simp)
      have hrs := ih (fun x hx => h x (by simp [hx]))
      simp [findTokenName, hr, hrs]

/-- The secret-reference loop stops at the first matching reference and never
examines anything after it. -/
theorem findTokenName_first_match (pre : List ObjectReference)
    (m : ObjectReference) (post : List ObjectReference)
    (hpre : ∀ r ∈ pre, regexpMatchTokenName r.Name = false)
    (hm : regexpMatchTokenName m.Name = true) :
    findTokenName (pre ++ m :: post) = (m.Name, pre ++ [m]) := by
  induction pre with
  | nil => simp [findTokenName, hm]
  | cons r rs ih =>
      have hr : regexpMatchTokenName r.Name = false := hpre r (by simp)
      have hrs := ih (fun x hx => hpre x (by simp [hx]))
      simp [findTokenName, hr, hrs]

/-- completeFromConfigPath never changes the resolved GitLab token. -/
theorem completeFromConfigPath_token (cenv : CompleteEnv)
    (o : GitLabBootstrapOptions) :
    (completeFromConfigPath cenv o).opts.GitLabAPIToken = o.GitLabAPIToken := by
  unfold completeFromConfigPath
  cases hb : cenv.buildConfigFromFlags o.KubeConfig with
  | error e => rfl
  | ok config =>
      simp only []
      cases hl : cenv.loadFromFile o.KubeConfig with
      | error e => rfl
      | ok api =>
          simp only []
          by_cases h1 : api.Contexts.length < 1
          · simp [h1]
          · simp only [h1, if_false]
            by_cases h2 : api.CurrentContext = ""
            · simp [h2]
            · simp only [h2, if_false]
              cases hn : cenv.newForConfig config with
              | error e => rfl
              | ok u => rfl

/-- completeFromConfigPath never reads an environment variable. -/
theorem completeFromConfigPath_no_getenv (cenv : CompleteEnv)
    (o : GitLabBootstrapOptions) (k : String) :
    CompleteCall.getenv k ∉ (completeFromConfigPath cenv o).calls := by
  unfold completeFromConfigPath
  cases hb : cenv.buildConfigFromFlags o.KubeConfig with
  | error e => simp
  | ok config =>
      simp only []
      cases hl : cenv.loadFromFile o.KubeConfig with
      | error e => simp
      | ok api =>
          simp only []
          by_cases h1 : api.Contexts.length < 1
          · simp [h1]
          · simp only [h1, if_false]
            by_cases h2 : api.CurrentContext = ""
            · simp [h2]
            · simp only [h2, if_false]
              cases hn : cenv.newForConfig config with
              | error e => simp
              | ok u => simp

/-- completeKube never changes the resolved GitLab token. -/
theorem completeKube_token (cenv : CompleteEnv) (o : GitLabBootstrapOptions) :
    (completeKube cenv o).opts.GitLabAPIToken = o.GitLabAPIToken := by
  unfold completeKube
  by_cases hf : o.ConfigFlagsKubeConfig ≠ ""
  · rw [if_pos hf]
    exact completeFromConfigPath_token cenv _
  · rw [if_neg hf]
    cases hh : cenv.userHomeDir with
    | error e => rfl
    | ok home =>
        exact completeFromConfigPath_token cenv _

/-- completeKube never reads an environment variable. -/
theorem completeKube_no_getenv (cenv : CompleteEnv)
    (o : GitLabBootstrapOptions) (k : String) :
    CompleteCall.getenv k ∉ (completeKube cenv o).calls := by
  unfold completeKube
  by_cases hf : o.ConfigFlagsKubeConfig ≠ ""
  · rw [if_pos hf]
    exact completeFromConfigPath_no_getenv cenv _ k
  · rw [if_neg hf]
    cases hh : cenv.userHomeDir with
    | error e => simp
    | ok home =>
        intro hmem
        rcases List.mem_cons.mp hmem with h | h
        · exact CompleteCall.noConfusion h
        · exact completeFromConfigPath_no_getenv cenv _ k h

/-- When the gitlab-admin ServiceAccount exists, CreateServiceAccount only
GETs it, prints the reuse line and changes nothing. -/
theorem createServiceAccount_found (st : ClusterState)
    (o : GitLabBootstrapOptions) (sa : ServiceAccount)
    (h : st.serviceAccounts.lookup "gitlab-admin" = some sa) :
    CreateServiceAccount st o =
      { err := none, state := st,
        calls := [KubeCall.getServiceAccount "kube-system" "gitlab-admin"],
        opts := o, output := ["Using existing gitlab-admin account"] } := by
  simp [CreateServiceAccount, kubeGetServiceAccount, h]

/-- When the gitlab-admin ServiceAccount is absent, CreateServiceAccount
GETs it, then CREATEs a ServiceAccount with only the name set. -/
theorem createServiceAccount_created (st : ClusterState)
    (o : GitLabBootstrapOptions)
    (h : st.serviceAccounts.lookup "gitlab-admin" = none) :
    CreateServiceAccount st o =
      { err := none,
        state := { st with serviceAccounts := st.serviceAccounts ++
          [("gitlab-admin", { metadata := { Name := "gitlab-admin" }, Secrets := [] })] },
        calls := [KubeCall.getServiceAccount "kube-system" "gitlab-admin",
                  KubeCall.createServiceAccount "kube-system"
                    { metadata := { Name := "gitlab-admin" }, Secrets := [] }],
        opts := o, output := [] } := by
  simp [CreateServiceAccount, kubeGetServiceAccount, kubeCreateServiceAccount, h]

/-- After one CreateServiceAccount step the gitlab-admin ServiceAccount is
always present. -/
theorem createServiceAccount_state_lookup (st : ClusterState)
    (o : GitLabBootstrapOptions) :
    ∃ sa, (CreateServiceAccount st o).state.serviceAccounts.lookup
      "gitlab-admin" = some sa := by
  cases hl : st.serviceAccounts.lookup "gitlab-admin" with
  | some sa =>
      refine ⟨sa, ?_⟩
      rw [createServiceAccount_found st o sa hl]
      exact hl
  | none =>
      refine ⟨{ metadata := { Name := "gitlab-admin" }, Secrets := [] }, ?_⟩
      rw [createServiceAccount_created st o hl]
      exact lookup_append_singleton st.serviceAccounts "gitlab-admin" _ hl

/-- C3: for every cluster state in which a gitlab-admin ServiceAccount
already exists in kube-system (the GET succeeds), CreateServiceAccount
issues no CREATE call, leaves the resource and the whole state unmodified,
and succeeds; and running the step a second time, from any starting state,
reproduces the state the first run left (idempotence). -/
theorem createServiceAccount_existing_reuses_idempotent
    (st : ClusterState) (o : GitLabBootstrapOptions) (sa : ServiceAccount)
    (h : st.serviceAccounts.lookup "gitlab-admin" = some sa) :
    CreateServiceAccount st o =
      { err := none, state := st,
        calls := [KubeCall.getServiceAccount "kube-system" "gitlab-admin"],
        opts := o, output := ["Using existing gitlab-admin account"] } ∧
    ∀ (st2 : ClusterState) (o2 : GitLabBootstrapOptions),
      CreateServiceAccount (CreateServiceAccount st2 o2).state o2 =
        { err := none, state := (CreateServiceAccount st2 o2).state,
          calls := [KubeCall.getServiceAccount "kube-system" "gitlab-admin"],
          opts := o2, output := ["Using existing gitlab-admin account"] } := by
  refine ⟨createServiceAccount_found st o sa h, ?_⟩
  intro st2 o2
  obtain ⟨sa2, hsa2⟩ := createServiceAccount_state_lookup st2 o2
  exact createServiceAccount_found _ o2 sa2 hsa2

/-- Witness for C3 at a concrete state holding the ServiceAccount. -/
theorem createServiceAccount_existing_reuses_idempotent_witness :
    stExisting.serviceAccounts.lookup "gitlab-admin" = some saWithToken ∧
    CreateServiceAccount stExisting oReady =
      { err := none, state := stExisting,
        calls := [KubeCall.getServiceAccount "kube-system" "gitlab-admin"],
        opts := oReady, output := ["Using existing gitlab-admin account"] } :=
  ⟨rfl, (createServiceAccount_existing_reuses_idempotent stExisting oReady
          saWithToken rfl).1⟩

/-- C4: for every cluster state with no existing gitlab-admin
ServiceAccount (the GET fails), CreateServiceAccount issues exactly one
CREATE call, whose ServiceAccount object has name gitlab-admin and every
other field at its zero value. -/
theorem createServiceAccount_absent_creates_once
    (st : ClusterState) (o : GitLabBootstrapOptions)
    (h : st.serviceAccounts.lookup "gitlab-admin" = none) :
    CreateServiceAccount st o =
      { err := none,
        state := { st with serviceAccounts := st.serviceAccounts ++
          [("gitlab-admin", { metadata := { Name := "gitlab-admin" }, Secrets := [] })] },
        calls := [KubeCall.getServiceAccount "kube-system" "gitlab-admin",
                  KubeCall.createServiceAccount "kube-system"
                    { metadata := { Name := "gitlab-admin" }, Secrets := [] }],
        opts := o, output := [] } :=
  createServiceAccount_created st o h

/-- Witness for C4 at the empty cluster state. -/
theorem createServiceAccount_absent_creates_once_witness :
    (({} : ClusterState).serviceAccounts.lookup "gitlab-admin" = none) ∧
    CreateServiceAccount {} oReady =
      { err := none,
        state := { serviceAccounts :=
          [("gitlab-admin", { metadata := { Name := "gitlab-admin" }, Secrets := [] })] },
        calls := [KubeCall.getServiceAccount "kube-system" "gitlab-admin",
                  KubeCall.createServiceAccount "kube-system"
                    { metadata := { Name := "gitlab-admin" }, Secrets := [] }],
        opts := oReady, output := [] } :=
  ⟨rfl, createServiceAccount_absent_creates_once {} oReady rfl⟩

/-- C7: with the positional id absent, Complete fails at once with the
missing-argument error ("GitLab project id is required") and the whole
command performs no external call at all, Kubernetes or GitLab. -/
theorem complete_missing_arg_fails_before_any_call
    (cenv : CompleteEnv) (server : GitLabServer) (st : ClusterState)
    (o : GitLabBootstrapOptions) :
    Complete cenv o [] =
      { err := some (.base "GitLab project id is required"),
        opts := o, calls := [] } ∧
    RunE cenv server st o [] =
      { err := some (.base "GitLab project id is required"),
        completeCalls := [], gitlabCalls := [], kubeCalls := [],
        opts := o, state := st, output := [] } :=
  ⟨rfl, rfl⟩

/-- C1 (code slip): with the token Secret present but its "token" datum
empty, SaveServiceAccountToken returns nil (errors.Wrap of a nil error)
instead of an EmptyToken error, leaves ServiceAccountToken empty, and the
pipeline then attempts the GitLab registration with an empty token. -/
theorem saveServiceAccountToken_empty_token_reports_success :
    (SaveServiceAccountToken stEmptyTokenSecret oReady).err = none ∧
    (SaveServiceAccountToken stEmptyTokenSecret oReady).opts = oReady ∧
    oReady.ServiceAccountToken = "" ∧
    (Run serverOK stEmptyTokenSecret oReady).gitlabCalls =
      [GitLabCall.addProjectCluster "7" (projectClusterOpts oReady)] ∧
    (projectClusterOpts oReady).PlatformKubernetes.Token = "" := by
  refine ⟨?_, ?_, ?_, ?_, ?_⟩ <;> decide

/-- C5: with a non-empty token and id, the group flag decides the target
exactly once for the whole invocation: flag true means Validate performs
only the group lookup and registration performs only the group cluster-add;
flag false means only the project endpoints are called. -/
theorem validate_and_register_target_split (server : GitLabServer)
    (o : GitLabBootstrapOptions)
    (htok : o.GitLabAPIToken ≠ "") (hid : o.GitLabProjectID ≠ "") :
    (o.GitLabGroupCluster = true →
      (Validate server o).calls = [GitLabCall.getGroup o.GitLabProjectID] ∧
      (AddClusterToGitLab server o).calls =
        [GitLabCall.addGroupCluster o.GitLabProjectID (groupClusterOpts o)]) ∧
    (o.GitLabGroupCluster = false →
      (Validate server o).calls = [GitLabCall.getProject o.GitLabProjectID] ∧
      (AddClusterToGitLab server o).calls =
        [GitLabCall.addProjectCluster o.GitLabProjectID (projectClusterOpts o)]) := by
  refine ⟨fun hg => ⟨?_, ?_⟩, fun hg => ⟨?_, ?_⟩⟩
  · cases hr : server.getGroup o.GitLabProjectID <;>
      simp [Validate, htok, hid, hg, hr]
  · cases hr : server.addGroupCluster o.GitLabProjectID (groupClusterOpts o) <;>
      simp [AddClusterToGitLab, addClusterToGroup, hg, hr]
  · cases hr : server.getProject o.GitLabProjectID <;>
      simp [Validate, htok, hid, hg, hr]
  · cases hr : server.addProjectCluster o.GitLabProjectID (projectClusterOpts o) <;>
      simp [AddClusterToGitLab, addClusterToProject, hg, hr]

/-- Witness for C5 at a concrete project-target invocation. -/
theorem validate_and_register_target_split_witness :
    oReady.GitLabAPIToken ≠ "" ∧ oReady.GitLabProjectID ≠ "" ∧
    oReady.GitLabGroupCluster = false ∧
    (Validate serverOK oReady).calls = [GitLabCall.getProject "7"] ∧
    (AddClusterToGitLab serverOK oReady).calls =
      [GitLabCall.addProjectCluster "7" (projectClusterOpts oReady)] := by
  refine ⟨by decide, by decide, rfl, ?_, ?_⟩
  · exact ((validate_and_register_target_split serverOK oReady (by decide)
      (by decide)).2 rfl).1
  · exact ((validate_and_register_target_split serverOK oReady (by decide)
      (by decide)).2 rfl).2

/-- C6: on a successful project cluster-add response, the registrar prints
the confirmation line and a follow-up line whose URL is the response's
project WebURL followed by "/clusters/" and the returned cluster id; at the
example response the URL ends in "/clusters/42". -/
theorem addClusterToProject_prints_cluster_url (server : GitLabServer)
    (o : GitLabBootstrapOptions) (pc : ProjectCluster)
    (h : server.addProjectCluster o.GitLabProjectID (projectClusterOpts o) = .ok pc) :
    (addClusterToProject server o).output =
      ["Cluster successfully added to project!",
       "To finish up visit: " ++
         (pc.Project.WebURL ++ "/clusters/" ++ toString pc.ID) ++
         " and install Helm and Runner."] ∧
    (pc.Project.WebURL = "https://gitlab.example/proj" → pc.ID = 42 →
      ∃ pre, pc.Project.WebURL ++ "/clusters/" ++ toString pc.ID =
        pre ++ "/clusters/42") := by
  constructor
  · simp [addClusterToProject, h]
  · intro h1 h2
    refine ⟨"https://gitlab.example/proj", ?_⟩
    rw [h1, h2]
    rfl

/-- Witness for C6 at the example response (WebURL
"https://gitlab.example/proj", ID 42). -/
theorem addClusterToProject_prints_cluster_url_witness :
    serverOK.addProjectCluster oReady.GitLabProjectID (projectClusterOpts oReady) =
      .ok pcW ∧
    (addClusterToProject serverOK oReady).output =
      ["Cluster successfully added to project!",
       "To finish up visit: https://gitlab.example/proj/clusters/42 and install Helm and Runner."] ∧
    ∃ pre, pcW.Project.WebURL ++ "/clusters/" ++ toString pcW.ID =
      pre ++ "/clusters/42" := by
  refine ⟨rfl, ?_, ?_⟩
  · rw [(addClusterToProject_prints_cluster_url serverOK oReady pcW rfl).1]
    rfl
  · exact (addClusterToProject_prints_cluster_url serverOK oReady pcW rfl).2 rfl rfl

/-- The gitlab-admin ServiceAccount GET succeeds when the object exists. -/
theorem kubeGetServiceAccount_gitlab_admin (st : ClusterState)
    (sa : ServiceAccount)
    (hsa : st.serviceAccounts.lookup "gitlab-admin" = some sa) :
    kubeGetServiceAccount st "gitlab-admin" = .ok sa := by
  unfold kubeGetServiceAccount
  rw [if_neg (by decide : ¬("gitlab-admin" : String) = ""), hsa]

/-- Whatever the Secret GET returns, SaveServiceAccountToken issues exactly
the ServiceAccount GET followed by one Secret GET for the name the reference
loop selected. -/
theorem saveToken_calls (st : ClusterState) (o : GitLabBootstrapOptions)
    (sa : ServiceAccount)
    (hsa : st.serviceAccounts.lookup "gitlab-admin" = some sa) :
    (SaveServiceAccountToken st o).calls =
      [KubeCall.getServiceAccount "kube-system" "gitlab-admin",
       KubeCall.getSecret "kube-system" (findTokenName sa.Secrets).1] := by
  unfold SaveServiceAccountToken
  rw [kubeGetServiceAccount_gitlab_admin st sa hsa]
  cases hg : kubeGetSecret st (findTokenName sa.Secrets).1 with
  | error e => simp [hg]
  | ok secret =>
      by_cases htok : mapGetD secret.Data "token" = "" <;> simp [hg, htok]

/-- With no matching secret reference, the empty-name Secret GET fails
client-side and SaveServiceAccountToken returns its wrapped error. -/
theorem saveToken_no_match_err (st : ClusterState)
    (o : GitLabBootstrapOptions) (sa : ServiceAccount)
    (hsa : st.serviceAccounts.lookup "gitlab-admin" = some sa)
    (hnone : ∀ r ∈ sa.Secrets, regexpMatchTokenName r.Name = false) :
    (SaveServiceAccountToken st o).err =
      some (.wrapped "unable to get serviceaccount token"
        (.base "resource name may not be empty")) := by
  have hfind := findTokenName_of_no_match sa.Secrets hnone
  unfold SaveServiceAccountToken
  rw [kubeGetServiceAccount_gitlab_admin st sa hsa]
  simp [hfind, kubeGetSecret, wrap]

/-- C9: when the secret-reference list is pre ++ m :: post with no match in
pre, m matching, and a further match somewhere in post, the loop selects m
(the first match), examines only pre ++ [m], and the only Secret fetched is
m; no later reference is inspected or fetched. -/
theorem saveServiceAccountToken_selects_first_match
    (st : ClusterState) (o : GitLabBootstrapOptions) (sa : ServiceAccount)
    (pre post : List ObjectReference) (m : ObjectReference)
    (hsa : st.serviceAccounts.lookup "gitlab-admin" = some sa)
    (hsecr : sa.Secrets = pre ++ m :: post)
    (hpre : ∀ r ∈ pre, regexpMatchTokenName r.Name = false)
    (hm : regexpMatchTokenName m.Name = true)
    (hpost : ∃ r ∈ post, regexpMatchTokenName r.Name = true) :
    findTokenName sa.Secrets = (m.Name, pre ++ [m]) ∧
    (SaveServiceAccountToken st o).calls =
      [KubeCall.getServiceAccount "kube-system" "gitlab-admin",
       KubeCall.getSecret "kube-system" m.Name] := by
  have hfind : findTokenName sa.Secrets = (m.Name, pre ++ [m]) := by
    rw [hsecr]
    exact findTokenName_first_match pre m post hpre hm
  refine ⟨hfind, ?_⟩
  rw [saveToken_calls st o sa hsa, hfind]

/-- Witness for C9 at a ServiceAccount with two matching references. -/
theorem saveServiceAccountToken_selects_first_match_witness :
    stTwoMatches.serviceAccounts.lookup "gitlab-admin" = some saTwoMatches ∧
    saTwoMatches.Secrets =
      [{ Name := "foo" }] ++ { Name := "gitlab-admin-token-aaa" } ::
        [{ Name := "gitlab-admin-token-bbb" }] ∧
    findTokenName saTwoMatches.Secrets =
      ("gitlab-admin-token-aaa",
       [{ Name := "foo" }, { Name := "gitlab-admin-token-aaa" }]) ∧
    (SaveServiceAccountToken stTwoMatches oReady).calls =
      [KubeCall.getServiceAccount "kube-system" "gitlab-admin",
       KubeCall.getSecret "kube-system" "gitlab-admin-token-aaa"] := by
  refine ⟨rfl, rfl, ?_, ?_⟩
  · exact (saveServiceAccountToken_selects_first_match stTwoMatches oReady
      saTwoMatches [{ Name := "foo" }] [{ Name := "gitlab-admin-token-bbb" }]
      { Name := "gitlab-admin-token-aaa" } rfl rfl (by decide) (by decide)
      (by decide)).1
  · exact (saveServiceAccountToken_selects_first_match stTwoMatches oReady
      saTwoMatches [{ Name := "foo" }] [{ Name := "gitlab-admin-token-bbb" }]
      { Name := "gitlab-admin-token-aaa" } rfl rfl (by decide) (by decide)
      (by decide)).2

/-- C10: with no matching secret reference, SaveServiceAccountToken still
issues a Secret GET with the empty string as the name (tokenName keeps its
zero value), and what it returns is the wrap of that GET's error under
"unable to get serviceaccount token", not a distinct no-matching-reference
error. -/
theorem saveServiceAccountToken_no_match_issues_empty_name_get
    (st : ClusterState) (o : GitLabBootstrapOptions) (sa : ServiceAccount)
    (hsa : st.serviceAccounts.lookup "gitlab-admin" = some sa)
    (hnone : ∀ r ∈ sa.Secrets, regexpMatchTokenName r.Name = false) :
    (SaveServiceAccountToken st o).calls =
      [KubeCall.getServiceAccount "kube-system" "gitlab-admin",
       KubeCall.getSecret "kube-system" ""] ∧
    kubeGetSecret st "" = .error (.base "resource name may not be empty") ∧
    (SaveServiceAccountToken st o).err =
      wrap (some (.base "resource name may not be empty"))
        "unable to get serviceaccount token" := by
  have hfind := findTokenName_of_no_match sa.Secrets hnone
  have hcalls := saveToken_calls st o sa hsa
  rw [hfind] at hcalls
  exact ⟨hcalls, rfl, saveToken_no_match_err st o sa hsa hnone⟩

/-- Witness for C10 at a ServiceAccount whose references are foo and bar. -/
theorem saveServiceAccountToken_no_match_issues_empty_name_get_witness :
    stNoMatchRefs.serviceAccounts.lookup "gitlab-admin" = some saNoMatch ∧
    (SaveServiceAccountToken stNoMatchRefs oReady).calls =
      [KubeCall.getServiceAccount "kube-system" "gitlab-admin",
       KubeCall.getSecret "kube-system" ""] ∧
    (SaveServiceAccountToken stNoMatchRefs oReady).err =
      some (.wrapped "unable to get serviceaccount token"
        (.base "resource name may not be empty")) := by
  refine ⟨rfl, ?_, ?_⟩
  · exact (saveServiceAccountToken_no_match_issues_empty_name_get stNoMatchRefs
      oReady saNoMatch rfl (by decide)).1
  · exact (saveServiceAccountToken_no_match_issues_empty_name_get stNoMatchRefs
      oReady saNoMatch rfl (by decide)).2.2

/-- C2, counterexample part: at the concrete no-match ServiceAccount
(references foo, bar) the returned error is the wrapped Secret-GET failure —
the very same "unable to get serviceaccount token" wrap produced when a
matching reference exists but its Secret fetch fails — so no distinct
TokenNotFound error exists. -/
theorem saveServiceAccountToken_no_match_error_not_distinct :
    (SaveServiceAccountToken stNoMatchRefs oReady).err =
      some (.wrapped "unable to get serviceaccount token"
        (.base "resource name may not be empty")) ∧
    (SaveServiceAccountToken stNoMatchRefs oReady).err.map GoErr.message =
      some "unable to get serviceaccount token" ∧
    (SaveServiceAccountToken stFetchFail oReady).err.map GoErr.message =
      some "unable to get serviceaccount token" := by
  refine ⟨?_, ?_, ?_⟩ <;> decide

/-- C2, amended: with no matching secret reference, token extraction does
fail, but with the wrapped Secret-GET error ("unable to get serviceaccount
token"), not a distinct TokenNotFound error; and over the example list
[foo, gitlab-admin-token-abc123] the loop selects gitlab-admin-token-abc123. -/
theorem saveServiceAccountToken_no_match_fails_with_secret_get_error
    (st : ClusterState) (o : GitLabBootstrapOptions) (sa : ServiceAccount)
    (hsa : st.serviceAccounts.lookup "gitlab-admin" = some sa)
    (hnone : ∀ r ∈ sa.Secrets, regexpMatchTokenName r.Name = false) :
    (∃ e, (SaveServiceAccountToken st o).err =
      some (.wrapped "unable to get serviceaccount token" e)) ∧
    (findTokenName [{ Name := "foo" }, { Name := "gitlab-admin-token-abc123" }]).1 =
      "gitlab-admin-token-abc123" := by
  refine ⟨⟨.base "resource name may not be empty", ?_⟩, by decide⟩
  exact saveToken_no_match_err st o sa hsa hnone

/-- Witness for the amended C2 at the concrete no-match ServiceAccount. -/
theorem saveServiceAccountToken_no_match_fails_with_secret_get_error_witness :
    stNoMatchRefs.serviceAccounts.lookup "gitlab-admin" = some saNoMatch ∧
    (∃ e, (SaveServiceAccountToken stNoMatchRefs oReady).err =
      some (.wrapped "unable to get serviceaccount token" e)) ∧
    (findTokenName [{ Name := "foo" }, { Name := "gitlab-admin-token-abc123" }]).1 =
      "gitlab-admin-token-abc123" := by
  refine ⟨rfl, ?_, ?_⟩
  · exact (saveServiceAccountToken_no_match_fails_with_secret_get_error
      stNoMatchRefs oReady saNoMatch rfl (by decide)).1
  · exact (saveServiceAccountToken_no_match_fails_with_secret_get_error
      stNoMatchRefs oReady saNoMatch rfl (by decide)).2

/-- With exactly one positional argument, Complete is the token resolution
followed by completeKube, with the env read traced only when the token flag
is empty. -/
theorem complete_args_ok (cenv : CompleteEnv) (o : GitLabBootstrapOptions)
    (args : List String) (hargs : args.length = 1) :
    Complete cenv o args =
      if o.GitLabAPIToken = "" then
        { completeKube cenv
            { o with GitLabProjectID := args.headD "",
                     GitLabAPIToken := cenv.getenv "GITLAB_API_TOKEN" } with
          calls := CompleteCall.getenv "GITLAB_API_TOKEN" ::
            (completeKube cenv
              { o with GitLabProjectID := args.headD "",
                       GitLabAPIToken := cenv.getenv "GITLAB_API_TOKEN" }).calls }
      else
        completeKube cenv { o with GitLabProjectID := args.headD "" } := by
  unfold Complete
  rw [if_neg (by simp [hargs])]

/-- C8: sourcing the GitLab token from the GITLAB_API_TOKEN environment
variable with the flag unset behaves exactly like passing the same value via
the flag: Complete returns the same error and the same resolved options, the
resolved GitLabAPIToken is that value, and the environment variable is read
only when the flag is empty. -/
theorem complete_env_token_equivalent_to_flag (cenv : CompleteEnv)
    (o : GitLabBootstrapOptions) (args : List String) (t : String)
    (ht : cenv.getenv "GITLAB_API_TOKEN" = t) (hargs : args.length = 1) :
    (Complete cenv { o with GitLabAPIToken := "" } args).err =
      (Complete cenv { o with GitLabAPIToken := t } args).err ∧
    (Complete cenv { o with GitLabAPIToken := "" } args).opts =
      (Complete cenv { o with GitLabAPIToken := t } args).opts ∧
    (Complete cenv { o with GitLabAPIToken := "" } args).opts.GitLabAPIToken = t ∧
    ∀ o2 : GitLabBootstrapOptions, o2.GitLabAPIToken ≠ "" →
      CompleteCall.getenv "GITLAB_API_TOKEN" ∉ (Complete cenv o2 args).calls := by
  have hA := complete_args_ok cenv { o with GitLabAPIToken := "" } args hargs
  have hB := complete_args_ok cenv { o with GitLabAPIToken := t } args hargs
  rw [if_pos (show ({ o with GitLabAPIToken := "" } :
    GitLabBootstrapOptions).GitLabAPIToken = "" from rfl)] at hA
  rw [ht] at hA
  have hlast : ∀ o2 : GitLabBootstrapOptions, o2.GitLabAPIToken ≠ "" →
      CompleteCall.getenv "GITLAB_API_TOKEN" ∉ (Complete cenv o2 args).calls := by
    intro o2 h2
    rw [complete_args_ok cenv o2 args hargs, if_neg h2]
    exact completeKube_no_getenv cenv _ "GITLAB_API_TOKEN"
  by_cases htt : t = ""
  · subst htt
    refine ⟨rfl, rfl, ?_, hlast⟩
    rw [hA]
    show (completeKube cenv _).opts.GitLabAPIToken = ""
    rw [completeKube_token]
  · rw [if_neg (show ¬({ o with GitLabAPIToken := t } :
      GitLabBootstrapOptions).GitLabAPIToken = "" from htt)] at hB
    refine ⟨?_, ?_, ?_, hlast⟩
    · rw [hA, hB]
    · rw [hA, hB]
    · rw [hA]
      show (completeKube cenv _).opts.GitLabAPIToken = t
      rw [completeKube_token]

/-- Witness for C8: with the flag unset and GITLAB_API_TOKEN set to "tok",
Complete resolves the token to "tok". -/
theorem complete_env_token_equivalent_to_flag_witness :
    cenvW.getenv "GITLAB_API_TOKEN" = "tok" ∧
    (["7"] : List String).length = 1 ∧
    (Complete cenvW ({} : GitLabBootstrapOptions) ["7"]).opts.GitLabAPIToken =
      "tok" := by
  refine ⟨rfl, rfl, ?_⟩
  exact (complete_env_token_equivalent_to_flag cenvW {} ["7"] "tok" rfl rfl).2.2.1
